import Mathlib

/-!
Shallow embedding of the Jobly backend (Node/Express/PostgreSQL job-search
API): the partial-update SQL-fragment builder, the Company and Job
repositories, and the auth middleware, together with theorems settling the
specification claims about them.

JavaScript objects with string keys are modelled as association lists read
through a first-match lookup (a JS object cannot hold a duplicate key, so
consistent first-match reading is faithful).  Machine-level details that the
source never exercises (floating point, prototype chains) are outside the
modelled fragment; every place where a JS coercion matters to a claim is
modelled explicitly and noted.
-/

/-- Error values raised by the application.  `badRequest`, `notFound` and
`unauthorized` model the `expressError` classes of the same names;
`typeError` models a native JS `TypeError` (for example from reading a
property of `undefined`), which the middleware `catch` blocks forward to
`next` like any other thrown value. -/
inductive JError where
  | badRequest : String → JError
  | notFound : String → JError
  | unauthorized : String → JError
  | typeError : JError
deriving Repr, DecidableEq

/-- Subset of JS runtime values that cross the modelled interfaces:
strings and (integral) numbers. -/
inductive JSVal where
  | vstr : String → JSVal
  | vnum : Int → JSVal
deriving Repr, DecidableEq

/-- Reading `obj[k]` on a JS object modelled as an association list:
first binding for the key, `none` for `undefined`. -/
def lookupJs {α : Type} : List (String × α) → String → Option α
  | [], _ => none
  | p :: rest, k => if p.1 == k then some p.2 else lookupJs rest k

/-- The JS test `k in obj`. -/
def jsIn {α : Type} (obj : List (String × α)) (k : String) : Bool :=
  (lookupJs obj k).isSome

/-- Reading `obj[k]` where a missing key stringifies as `undefined`
(the behaviour of a template literal over an absent property). -/
def jsGetD (obj : List (String × String)) (k : String) : String :=
  (lookupJs obj k).getD "undefined"

/-- The JS expression `jsToSql[colName] || colName` from
`sqlForPartialUpdate`: the mapped column name unless the mapping is absent
or maps to a falsy string (the empty string is the only falsy string). -/
def colFor (jsToSql : List (String × String)) (k : String) : String :=
  match lookupJs jsToSql k with
  | some v => if v = "" then k else v
  | none => k

/-- Result object of `sqlForPartialUpdate`: the joined column-assignment
fragment and the ordered bind values. -/
structure SqlUpdate (α : Type) where
  setCols : String
  values : List α
deriving Repr, DecidableEq

/-- One assignment text produced for key `k` at zero-based position `i`:
the backing column quoted, `=$`, and the one-based placeholder index. -/
def colAssign (jsToSql : List (String × String)) (k : String) (i : Nat) : String :=
  "\"" ++ colFor jsToSql k ++ "\"=$" ++ toString (i + 1)

/-- Embedding of `sqlForPartialUpdate(dataToUpdate, jsToSql)` from
`helpers/sql.js`: throws `BadRequestError("No data")` on an empty update
object, otherwise maps each key (with its index) to a quoted assignment,
joins with a comma, and pairs the fragment with the object values in key
order. -/
def sqlForPartialUpdate {α : Type} (dataToUpdate : List (String × α))
    (jsToSql : List (String × String)) : Except JError (SqlUpdate α) :=
  let keys := dataToUpdate.map Prod.fst
  if keys.length = 0 then
    .error (.badRequest "No data")
  else
    let cols := keys.enum.map (fun p => colAssign jsToSql p.2 p.1)
    .ok ⟨String.intercalate ", " cols, dataToUpdate.map Prod.snd⟩

/-- Request identity decoded from a verified token: the payload fields the
middleware reads (`username`, `isAdmin`). -/
structure Identity where
  username : String
  isAdmin : Bool
deriving Repr, DecidableEq

/-- Embedding of `ensureAdmin` from the auth middleware.  The source tests
`!res.locals.user.isAdmin || !res.locals.user` inside a try/catch: with an
identity attached the first disjunct decides the outcome; with no identity
attached, reading `.isAdmin` of `undefined` raises a `TypeError`, which the
catch block forwards to `next` (the second disjunct is unreachable). -/
def ensureAdmin (user : Option Identity) : Except JError Unit :=
  match user with
  | none => .error .typeError
  | some u => if !u.isAdmin then .error (.unauthorized "Not an admin") else .ok ()

/-- Embedding of `ensureLoggedIn`: `Unauthorized` when no identity is
attached. -/
def ensureLoggedIn (user : Option Identity) : Except JError Unit :=
  match user with
  | none => .error (.unauthorized "Not logged in")
  | some _ => .ok ()

/-- Embedding of `ensureValidUserOrAdmin`: succeeds when an identity is
attached and is either an admin or matches the route username parameter. -/
def ensureValidUserOrAdmin (user : Option Identity) (routeUsername : String) :
    Except JError Unit :=
  match user with
  | none => .error (.unauthorized "Not a valid user or admin")
  | some u =>
    if u.isAdmin || u.username == routeUsername then .ok ()
    else .error (.unauthorized "Not a valid user or admin")

/-- Boolean prefix test on character lists, the shape `String.replace`
with an anchored literal regex needs. -/
def listIsPrefix : List Char → List Char → Bool
  | [], _ => true
  | _ :: _, [] => false
  | a :: as, b :: bs => a == b && listIsPrefix as bs

/-- A string prefix test evaluated on the underlying character lists. -/
def strStartsWith (s p : String) : Bool :=
  listIsPrefix p.data s.data

/-- Dropping the first `n` characters of a string. -/
def strDrop (s : String) (n : Nat) : String :=
  ⟨s.data.drop n⟩

/-- The JS `String.prototype.trim()`: whitespace removed from both ends. -/
def jsTrim (s : String) : String :=
  ⟨(s.data.dropWhile Char.isWhitespace).reverse.dropWhile Char.isWhitespace |>.reverse⟩

/-- The token extraction `authHeader.replace(/^[Bb]earer /, "").trim()`
from `authenticateJWT`: the anchored regex removes a leading `"Bearer "`
or `"bearer "` (only the first letter varies in case) and the remainder is
trimmed; a header without that exact prefix is trimmed whole. -/
def stripBearer (h : String) : String :=
  if strStartsWith h "Bearer " then jsTrim (strDrop h 7)
  else if strStartsWith h "bearer " then jsTrim (strDrop h 7)
  else jsTrim h

/-- Embedding of `authenticateJWT`.  `verify` stands for
`jwt.verify(token, SECRET_KEY)`, returning `none` when verification
throws.  The whole body runs inside try/catch with `next()` in both arms,
so the middleware never fails: the result is only the identity attached to
`res.locals` (`none` when no header is present or verification failed). -/
def authenticateJWT (verify : String → Option Identity)
    (authHeader : Option String) : Option Identity :=
  match authHeader with
  | none => none
  | some h => verify (stripBearer h)

/-- Row of the `companies` table (`handle` is the primary key). -/
structure CompanyRow where
  handle : String
  name : String
  description : String
  num_employees : Int
  logo_url : String
deriving Repr, DecidableEq

/-- Row of the `jobs` table (`id` is the generated key; `equity` is stored
and returned as a decimal string). -/
structure JobRow where
  id : Nat
  title : String
  salary : Int
  equity : String
  company_handle : String
deriving Repr, DecidableEq

/-- The relational store: both tables, rows in table order (a `SELECT`
without `ORDER BY` returns matches in this order, so `rows[0]` is the
first matching row). -/
structure DB where
  companies : List CompanyRow
  jobs : List JobRow
deriving Repr, DecidableEq

/-- Company record as returned by the model layer, with the aliased
camelCase fields of the `RETURNING` clause and no `jobs` field. -/
structure CompanyOut where
  handle : String
  name : String
  description : String
  numEmployees : Int
  logoUrl : String
deriving Repr, DecidableEq

/-- Conversion performed by `RETURNING handle, name, description,
num_employees AS "numEmployees", logo_url AS "logoUrl"`. -/
def companyToOut (c : CompanyRow) : CompanyOut :=
  ⟨c.handle, c.name, c.description, c.num_employees, c.logo_url⟩

/-- Embedding of `Company.create`: `selectQuery` filters `companies` by
handle; a first row present means duplicate, giving `BadRequest`;
otherwise the row is inserted and the aliased record returned. -/
def companyCreate (db : DB) (handle name description : String)
    (numEmployees : Int) (logoUrl : String) : Except JError (CompanyOut × DB) :=
  match (db.companies.filter (fun c => c.handle == handle)).head? with
  | some _ => .error (.badRequest ("Duplicate company: " ++ handle))
  | none =>
    let row : CompanyRow := ⟨handle, name, description, numEmployees, logoUrl⟩
    .ok (⟨handle, name, description, numEmployees, logoUrl⟩,
         { db with companies := db.companies ++ [row] })

/-- Job record as returned by `Job.get`: the `company_handle` field is
overwritten with `company.rows[0]`, the full owning-company row, or JS
`undefined` (`none`) when no company row matches. -/
structure JobDetail where
  id : Nat
  title : String
  salary : Int
  equity : String
  company_handle : Option CompanyRow
deriving Repr, DecidableEq

/-- Embedding of `Job.get(title)`: selects jobs `WHERE title = $1`, takes
`rows[0]`, throws `NotFound` when absent, then selects the company whose
handle equals the job's `company_handle` and stores that full row under
the `company_handle` key of the returned job. -/
def jobGet (db : DB) (title : String) : Except JError JobDetail :=
  match (db.jobs.filter (fun j => j.title == title)).head? with
  | none => .error (.notFound ("No job: " ++ title))
  | some j =>
    .ok { id := j.id, title := j.title, salary := j.salary, equity := j.equity,
          company_handle := (db.companies.filter (fun c => c.handle == j.company_handle)).head? }

/-- JS array read `l[n]` interpolated into a template literal: the element
when in range, the text `undefined` otherwise. -/
def jsIndexD (l : List String) (n : Nat) : String :=
  (l.get? n).getD "undefined"

/-- Outcome of a successful `filter` call before the store executes it:
the accumulated clause texts, their bind values, the joined filter
expression (the JS `filtersQuery`, which is the text `undefined` when no
clause was accumulated), and the full statement text. -/
structure FilterResult where
  filters : List String
  filtersValues : List JSVal
  filtersQuery : String
  sqlQuery : String
deriving Repr, DecidableEq

/-- Recognized job filter keys. -/
def jobValidFilters : List String := ["title", "minSalary", "hasEquity"]

/-- Embedding of `Job.filter(query)` up to the point the statement is
handed to the store: key validation, conditional clause accumulation
(`hasEquity` only for the literal string value `true`), the
length-dependent join, and the statement text with the interpolated
filter expression. -/
def jobFilter (query : List (String × String)) : Except JError FilterResult :=
  if query.any (fun p => !(jobValidFilters.contains p.1)) then
    .error (.badRequest "Invalid filter")
  else
    let f0 : List String := []
    let v0 : List JSVal := []
    let f1 := if jsIn query "title" then
        f0 ++ ["title ILIKE $" ++ toString (f0.length + 1)] else f0
    let v1 := if jsIn query "title" then
        v0 ++ [.vstr ("%" ++ jsGetD query "title" ++ "%")] else v0
    let f2 := if jsIn query "minSalary" then
        f1 ++ ["salary >= $" ++ toString (f1.length + 1)] else f1
    let v2 := if jsIn query "minSalary" then
        v1 ++ [.vstr (jsGetD query "minSalary")] else v1
    let f3 := if jsIn query "hasEquity" && (jsGetD query "hasEquity" == "true") then
        f2 ++ ["equity > $" ++ toString (f2.length + 1)] else f2
    let v3 := if jsIn query "hasEquity" && (jsGetD query "hasEquity" == "true") then
        v2 ++ [.vnum 0] else v2
    let filtersQuery := if f3.length > 1 then String.intercalate " AND " f3 else jsIndexD f3 0
    let sqlQuery := "SELECT id, title, salary, equity, company_handle\n      FROM jobs\n      WHERE "
      ++ filtersQuery ++ "\n      ORDER BY company_handle"
    .ok ⟨f3, v3, filtersQuery, sqlQuery⟩

/-- Recognized company filter keys. -/
def companyValidFilters : List String := ["name", "minEmployees", "maxEmployees"]

/-- Decimal digits accumulated left to right; any non-digit character
makes the whole parse fail. -/
def digitsToNatAux : List Char → Nat → Option Nat
  | [], acc => some acc
  | c :: rest, acc =>
    if c.isDigit then digitsToNatAux rest (acc * 10 + (c.toNat - 48)) else none

/-- The JS `Number()` coercion on the integral fragment the repository
exercises: surrounding whitespace is ignored, the empty string is `0`,
optionally signed integer literals parse, and every other string
(including non-integral numerics, which are outside the modelled
fragment) is NaN (`none`). -/
def jsNumber (s : String) : Option Int :=
  match (jsTrim s).data with
  | [] => some 0
  | c :: rest =>
    if c = '-' then
      match rest with
      | [] => none
      | _ => (digitsToNatAux rest 0).map (fun n => -(n : Int))
    else if c = '+' then
      match rest with
      | [] => none
      | _ => (digitsToNatAux rest 0).map (fun n => (n : Int))
    else (digitsToNatAux (c :: rest) 0).map (fun n => (n : Int))

/-- `Number(obj[k])` where a missing key is `undefined` and
`Number(undefined)` is NaN. -/
def jsNumberOf (obj : List (String × String)) (k : String) : Option Int :=
  match lookupJs obj k with
  | none => none
  | some s => jsNumber s

/-- A JS `>` comparison between two `Number()` results: false whenever
either side is NaN. -/
def jsGtNum : Option Int → Option Int → Bool
  | some x, some y => decide (x > y)
  | _, _ => false

/-- Embedding of `Company.filter(query)` up to the point the statement is
handed to the store: key validation, the min/max employee sanity check,
conditional clause accumulation, the length-dependent join, and the
statement text. -/
def companyFilter (query : List (String × String)) : Except JError FilterResult :=
  if query.any (fun p => !(companyValidFilters.contains p.1)) then
    .error (.badRequest "Invalid filter")
  else if jsIn query "minEmployees" && jsIn query "maxEmployees" &&
      jsGtNum (jsNumberOf query "minEmployees") (jsNumberOf query "maxEmployees") then
    .error (.badRequest "minEmployees cannot be greater than maxEmployees")
  else
    let f0 : List String := []
    let v0 : List JSVal := []
    let f1 := if jsIn query "name" then
        f0 ++ ["name ILIKE $" ++ toString (f0.length + 1)] else f0
    let v1 := if jsIn query "name" then
        v0 ++ [.vstr ("%" ++ jsGetD query "name" ++ "%")] else v0
    let f2 := if jsIn query "minEmployees" then
        f1 ++ ["num_employees >= $" ++ toString (f1.length + 1)] else f1
    let v2 := if jsIn query "minEmployees" then
        v1 ++ [.vstr (jsGetD query "minEmployees")] else v1
    let f3 := if jsIn query "maxEmployees" then
        f2 ++ ["num_employees <= $" ++ toString (f2.length + 1)] else f2
    let v3 := if jsIn query "maxEmployees" then
        v2 ++ [.vstr (jsGetD query "maxEmployees")] else v2
    let filtersQuery := if f3.length > 1 then String.intercalate " AND " f3 else jsIndexD f3 0
    let sqlQuery := "\n        SELECT *\n        FROM companies\n        WHERE "
      ++ filtersQuery ++ "\n        ORDER BY name\n      "
    .ok ⟨f3, v3, filtersQuery, sqlQuery⟩

/-- PG coercion of a bind value into a text column. -/
def asStr : JSVal → String
  | .vstr s => s
  | .vnum n => toString n

/-- PG coercion of a bind value into an integer column. -/
def asInt : JSVal → Int
  | .vnum n => n
  | .vstr s => (s.toInt?).getD 0

/-- Column-name mapping `Company.update` passes to the builder. -/
def companyJsToSql : List (String × String) :=
  [("numEmployees", "num_employees"), ("logoUrl", "logo_url")]

/-- Effect of one `SET "col"=$i` assignment on a company row (only the
updatable columns appear in route-validated payloads). -/
def setCompanyCol (r : CompanyRow) (col : String) (v : JSVal) : CompanyRow :=
  if col = "name" then { r with name := asStr v }
  else if col = "description" then { r with description := asStr v }
  else if col = "num_employees" then { r with num_employees := asInt v }
  else if col = "logo_url" then { r with logo_url := asStr v }
  else r

/-- Application of the whole `SET` list built from `data` to a company
row, each key resolved through the column-name mapping. -/
def updateCompanyRow (r : CompanyRow) (data : List (String × JSVal)) : CompanyRow :=
  data.foldl (fun acc p => setCompanyCol acc (colFor companyJsToSql p.1) p.2) r

/-- Embedding of `Company.update(handle, data)`: the builder first (so an
empty `data` raises its `BadRequest`), then the `UPDATE ... WHERE handle =
$n RETURNING ...` statement: rows matching the handle are updated and
returned; no returned row raises `NotFound`; otherwise `rows[0]` is
returned as the aliased record. -/
def companyUpdate (db : DB) (handle : String) (data : List (String × JSVal)) :
    Except JError (CompanyOut × DB) :=
  match sqlForPartialUpdate data companyJsToSql with
  | .error e => .error e
  | .ok _ =>
    let returned := (db.companies.filter (fun c => c.handle == handle)).map
      (fun c => updateCompanyRow c data)
    match returned.head? with
    | none => .error (.notFound ("No company: " ++ handle))
    | some c =>
      let table := db.companies.map
        (fun x => if x.handle == handle then updateCompanyRow x data else x)
      .ok (companyToOut c, { db with companies := table })

/-- Embedding of `Company.remove(handle)`: `DELETE ... RETURNING handle`;
no returned row raises `NotFound`, otherwise the function returns nothing
(the resulting store is the visible effect). -/
def companyRemove (db : DB) (handle : String) : Except JError DB :=
  let deleted := db.companies.filter (fun c => c.handle == handle)
  match deleted.head? with
  | none => .error (.notFound ("No company: " ++ handle))
  | some _ => .ok { db with companies := db.companies.filter (fun c => !(c.handle == handle)) }

/-- Effect of one `SET "col"=$i` assignment on a job row (only the
updatable columns appear in route-validated payloads). -/
def setJobCol (r : JobRow) (col : String) (v : JSVal) : JobRow :=
  if col = "title" then { r with title := asStr v }
  else if col = "salary" then { r with salary := asInt v }
  else if col = "equity" then { r with equity := asStr v }
  else r

/-- Application of the whole `SET` list built from `data` to a job row
(`Job.update` passes an empty column-name mapping). -/
def updateJobRow (r : JobRow) (data : List (String × JSVal)) : JobRow :=
  data.foldl (fun acc p => setJobCol acc (colFor [] p.1) p.2) r

/-- Embedding of `Job.update(id, data)`.  The `NotFound` message really
reads `No company:` in the source. -/
def jobUpdate (db : DB) (id : Nat) (data : List (String × JSVal)) :
    Except JError (JobRow × DB) :=
  match sqlForPartialUpdate data ([] : List (String × String)) with
  | .error e => .error e
  | .ok _ =>
    let returned := (db.jobs.filter (fun j => j.id == id)).map
      (fun j => updateJobRow j data)
    match returned.head? with
    | none => .error (.notFound ("No company: " ++ toString id))
    | some j =>
      let table := db.jobs.map
        (fun x => if x.id == id then updateJobRow x data else x)
      .ok (j, { db with jobs := table })

/-- Embedding of `Job.remove(id)`: `DELETE ... RETURNING id`; no returned
row raises `NotFound`. -/
def jobRemove (db : DB) (id : Nat) : Except JError DB :=
  let deleted := db.jobs.filter (fun j => j.id == id)
  match deleted.head? with
  | none => .error (.notFound ("No job: " ++ toString id))
  | some _ => .ok { db with jobs := db.jobs.filter (fun j => !(j.id == id)) }

-- Theorems for the claims follow.

/-- helper: the non-empty branch of the builder, shared by the claims that
go through it. -/
theorem sqlForPartialUpdate_ok {α : Type} (d : List (String × α))
    (m : List (String × String)) (hd : d ≠ []) :
    sqlForPartialUpdate d m =
      .ok ⟨String.intercalate ", " ((d.map Prod.fst).enum.map (fun p => colAssign m p.2 p.1)),
           d.map Prod.snd⟩ := by
  unfold sqlForPartialUpdate
  rw [if_neg (by simpa using hd)]

/-- C1: `sqlForPartialUpdate` on an empty mapping fails with `BadRequest`;
on a non-empty mapping it succeeds, its values are the mapping values in
key order, and its fragment is the comma-join of a list whose `i`-th entry
is the quoted backing column of the `i`-th key followed by the placeholder
`=$ (i+1)`; in particular the mapping `a ↦ 1, b ↦ 2` with an empty
column-name mapping yields the fragment `"a"=$1, "b"=$2` with values
`[1, 2]`. -/
theorem sqlForPartialUpdate_spec :
    (∀ (m : List (String × String)),
      sqlForPartialUpdate ([] : List (String × Int)) m = .error (.badRequest "No data")) ∧
    (∀ (d : List (String × Int)) (m : List (String × String)), d ≠ [] →
      ∃ u, sqlForPartialUpdate d m = .ok u ∧
        u.values = d.map Prod.snd ∧
        ∃ cols : List String,
          u.setCols = String.intercalate ", " cols ∧
          ∃ hl : cols.length = d.length,
          ∀ i : Fin d.length,
            cols.get (Fin.cast hl.symm i) = colAssign m (d.get i).1 i.1) ∧
    sqlForPartialUpdate [("a", (1 : Int)), ("b", 2)] [] =
      .ok ⟨"\"a\"=$1, \"b\"=$2", [1, 2]⟩ := by
  refine ⟨fun m => rfl, ?_, by rfl⟩
  intro d m hd
  refine ⟨_, sqlForPartialUpdate_ok d m hd, rfl,
    (d.map Prod.fst).enum.map (fun p => colAssign m p.2 p.1), rfl, by simp, ?_⟩
  intro i
  simp [List.get_eq_getElem, List.getElem_map, List.getElem_enum]

/-- C1 witness: the theorem instantiated on the two-field mapping of the
claim. -/
theorem sqlForPartialUpdate_spec_witness :
    ∃ u, sqlForPartialUpdate [("a", (1 : Int)), ("b", 2)] [] = .ok u ∧
      u.values = [("a", (1 : Int)), ("b", 2)].map Prod.snd ∧
      ∃ cols : List String, u.setCols = String.intercalate ", " cols ∧
      ∃ hl : cols.length = [("a", (1 : Int)), ("b", 2)].length,
      ∀ i : Fin [("a", (1 : Int)), ("b", 2)].length,
        cols.get (Fin.cast hl.symm i) =
          colAssign [] ([("a", (1 : Int)), ("b", 2)].get i).1 i.1 :=
  sqlForPartialUpdate_spec.2.1 [("a", 1), ("b", 2)] [] (by decide)

/-- C10: the backing column for a key `k` is the JS expression
`m[k] || k`, so a key mapped to a falsy value (the empty string, the only
falsy string) yields the key itself, exactly as a key absent from the
mapping does; consequently `sqlForPartialUpdate` builds the same update
for such a mapping as for the empty mapping. -/
theorem colFor_falsy_spec :
    (∀ (m : List (String × String)) (k : String),
      lookupJs m k = some "" → colFor m k = k) ∧
    (∀ (m : List (String × String)) (k : String),
      lookupJs m k = none → colFor m k = k) ∧
    (∀ (m : List (String × String)) (k : String) (i : Nat),
      lookupJs m k = some "" → colAssign m k i = colAssign [] k i) ∧
    (∀ (m : List (String × String)) (k : String) (v : Int),
      lookupJs m k = some "" →
      sqlForPartialUpdate [(k, v)] m = sqlForPartialUpdate [(k, v)] []) := by
  refine ⟨fun m k h => by simp [colFor, h],
          fun m k h => by simp [colFor, h],
          fun m k i h => by simp [colAssign, colFor, h, lookupJs],
          fun m k v h => ?_⟩
  rw [sqlForPartialUpdate_ok _ _ (by simp), sqlForPartialUpdate_ok _ _ (by simp)]
  simp [colAssign, colFor, h, lookupJs]

/-- C10 witness: a column-name mapping sending `numEmployees` to the empty
string behaves as the empty mapping. -/
theorem colFor_falsy_spec_witness :
    colFor [("numEmployees", "")] "numEmployees" = "numEmployees" ∧
    colAssign [("numEmployees", "")] "numEmployees" 0 = colAssign [] "numEmployees" 0 ∧
    sqlForPartialUpdate [("numEmployees", (5 : Int))] [("numEmployees", "")] =
      sqlForPartialUpdate [("numEmployees", (5 : Int))] [] :=
  ⟨colFor_falsy_spec.1 [("numEmployees", "")] "numEmployees" rfl,
   colFor_falsy_spec.2.2.1 [("numEmployees", "")] "numEmployees" 0 rfl,
   colFor_falsy_spec.2.2.2 [("numEmployees", "")] "numEmployees" 5 rfl⟩

/-- C3: evaluation of the require-admin guard.  With no identity attached
the guard fails, but with a `TypeError` forwarded to the error handler
(the source reads `.isAdmin` before checking existence), not with
`Unauthorized` as its own doc comment promises; with a non-admin identity
it fails with `Unauthorized`; with an admin identity it succeeds. -/
theorem ensureAdmin_eval :
    ensureAdmin none = .error .typeError ∧
    (∀ u : Identity, u.isAdmin = false →
      ensureAdmin (some u) = .error (.unauthorized "Not an admin")) ∧
    (∀ u : Identity, u.isAdmin = true → ensureAdmin (some u) = .ok ()) :=
  ⟨rfl, fun u h => by simp [ensureAdmin, h], fun u h => by simp [ensureAdmin, h]⟩

/-- C3 witness: the guard evaluated on a concrete non-admin and a concrete
admin identity. -/
theorem ensureAdmin_eval_witness :
    ensureAdmin (some ⟨"u1", false⟩) = .error (.unauthorized "Not an admin") ∧
    ensureAdmin (some ⟨"admin", true⟩) = .ok () :=
  ⟨ensureAdmin_eval.2.1 ⟨"u1", false⟩ rfl, ensureAdmin_eval.2.2 ⟨"admin", true⟩ rfl⟩

/-- C8 counterexample: with a verifier accepting exactly the token `tok`,
the header `BEARER tok` (word fully upper-case) is not stripped — the
whole header reaches the verifier and no identity is attached — while
`Bearer tok` attaches one, so prefix stripping is not case-insensitive
beyond the first letter. -/
theorem authenticateJWT_uppercase_not_stripped :
    authenticateJWT (fun t => if t = "tok" then some ⟨"u1", false⟩ else none)
      (some "BEARER tok") = none ∧
    authenticateJWT (fun t => if t = "tok" then some ⟨"u1", false⟩ else none)
      (some "Bearer tok") = some ⟨"u1", false⟩ := by
  constructor <;> rfl

/-- C8 amended: the authenticate step never fails; with no header no
identity is attached; a header starting with exactly `Bearer ` or
`bearer ` (only the first letter varies in case) has that prefix removed
and the trimmed remainder verified, the decoded payload being attached
exactly when verification succeeds (`verify` returns `none` on failure);
a header with any other casing of the prefix is passed whole (trimmed) to
the verifier. -/
theorem authenticateJWT_spec :
    (∀ v : String → Option Identity, authenticateJWT v none = none) ∧
    (∀ (v : String → Option Identity) (t : String),
      authenticateJWT v (some ("Bearer " ++ t)) = v (jsTrim t)) ∧
    (∀ (v : String → Option Identity) (t : String),
      authenticateJWT v (some ("bearer " ++ t)) = v (jsTrim t)) ∧
    (∀ (v : String → Option Identity) (h : String),
      strStartsWith h "Bearer " = false → strStartsWith h "bearer " = false →
      authenticateJWT v (some h) = v (jsTrim h)) := by
  refine ⟨fun v => rfl, fun v t => rfl, fun v t => rfl, fun v h h1 h2 => ?_⟩
  simp [authenticateJWT, stripBearer, h1, h2]

/-- C8 amended witness: the spec applied to a concrete verifier, a
`Bearer`-prefixed header and a prefix-free header. -/
theorem authenticateJWT_spec_witness :
    authenticateJWT (fun t => if t = "tok" then some ⟨"u1", false⟩ else none)
      (some ("Bearer " ++ "tok")) =
      (fun t => if t = "tok" then some (⟨"u1", false⟩ : Identity) else none) (jsTrim "tok") ∧
    authenticateJWT (fun t => if t = "tok" then some ⟨"u1", false⟩ else none)
      (some "xyz") =
      (fun t => if t = "tok" then some (⟨"u1", false⟩ : Identity) else none) (jsTrim "xyz") :=
  ⟨authenticateJWT_spec.2.1 _ "tok", authenticateJWT_spec.2.2.2 _ "xyz" rfl rfl⟩

/-- helper: the first row of a result set is a member of it. -/
theorem head?_some_mem {α : Type} {l : List α} {a : α} (h : l.head? = some a) : a ∈ l := by
  cases l with
  | nil => cases h
  | cons b bs =>
    simp only [List.head?_cons, Option.some.injEq] at h
    exact h ▸ List.mem_cons_self b bs

/-- C5: creating a company whose handle already exists fails with
`BadRequest` (`Duplicate company`) whatever the other fields hold; with a
fresh handle the aliased record (handle, name, description, numEmployees,
logoUrl — the result type carries no jobs field) is returned and the row
appended to the table. -/
theorem companyCreate_spec :
    (∀ (db : DB) (h n d : String) (ne : Int) (lu : String),
      (∃ c ∈ db.companies, c.handle = h) →
      companyCreate db h n d ne lu = .error (.badRequest ("Duplicate company: " ++ h))) ∧
    (∀ (db : DB) (h n d : String) (ne : Int) (lu : String),
      (∀ c ∈ db.companies, c.handle ≠ h) →
      companyCreate db h n d ne lu =
        .ok (⟨h, n, d, ne, lu⟩, ⟨db.companies ++ [⟨h, n, d, ne, lu⟩], db.jobs⟩)) := by
  constructor
  · intro db h n d ne lu hdup
    obtain ⟨c, hc, hh⟩ := hdup
    cases hf : (db.companies.filter (fun c => c.handle == h)).head? with
    | none =>
      rw [List.head?_eq_none_iff, List.filter_eq_nil_iff] at hf
      exact absurd (by simpa using hh) (by simpa using hf c hc)
    | some x => simp [companyCreate, hf]
  · intro db h n d ne lu hfresh
    have hf : db.companies.filter (fun c => c.handle == h) = [] := by
      rw [List.filter_eq_nil_iff]
      intro c hc
      simpa using hfresh c hc
    simp [companyCreate, hf]

/-- C5 witness: a duplicate handle rejected and a fresh handle inserted,
on a one-company store. -/
theorem companyCreate_spec_witness :
    companyCreate ⟨[⟨"c1", "C1", "Desc1", 1, "http://c1.img"⟩], []⟩
        "c1" "other" "other" 9 "x" =
      .error (.badRequest ("Duplicate company: " ++ "c1")) ∧
    companyCreate ⟨[⟨"c1", "C1", "Desc1", 1, "http://c1.img"⟩], []⟩
        "c2" "C2" "Desc2" 2 "y" =
      .ok (⟨"c2", "C2", "Desc2", 2, "y"⟩,
        ⟨[⟨"c1", "C1", "Desc1", 1, "http://c1.img"⟩, ⟨"c2", "C2", "Desc2", 2, "y"⟩], []⟩) :=
  ⟨companyCreate_spec.1 _ "c1" "other" "other" 9 "x"
      ⟨⟨"c1", "C1", "Desc1", 1, "http://c1.img"⟩, by simp, rfl⟩,
   companyCreate_spec.2 _ "c2" "C2" "Desc2" 2 "y" (by decide)⟩

/-- C4: `Job.get` looks the job up by title: it fails with `NotFound` when
no stored job has the requested title, and otherwise returns a job row
whose title is the requested one, with the full owning-company row (all
five company columns) stored under the `company_handle` key whenever the
owning company exists. -/
theorem jobGet_spec :
    (∀ (db : DB) (t : String), (∀ j ∈ db.jobs, j.title ≠ t) →
      jobGet db t = .error (.notFound ("No job: " ++ t))) ∧
    (∀ (db : DB) (t : String) (r : JobDetail), jobGet db t = .ok r →
      ∃ j ∈ db.jobs, j.title = t ∧ r.id = j.id ∧ r.title = j.title ∧
        r.salary = j.salary ∧ r.equity = j.equity ∧
        (∀ c, r.company_handle = some c → c ∈ db.companies ∧ c.handle = j.company_handle) ∧
        ((∃ c ∈ db.companies, c.handle = j.company_handle) →
          ∃ c, r.company_handle = some c ∧ c ∈ db.companies ∧
            c.handle = j.company_handle)) := by
  constructor
  · intro db t hnone
    have hf : db.jobs.filter (fun j => j.title == t) = [] := by
      rw [List.filter_eq_nil_iff]
      intro j hj
      simpa using hnone j hj
    simp [jobGet, hf]
  · intro db t r hok
    unfold jobGet at hok
    cases hf : (db.jobs.filter (fun j => j.title == t)).head? with
    | none => rw [hf] at hok; cases hok
    | some j =>
      rw [hf] at hok
      have hjmem := head?_some_mem hf
      rw [List.mem_filter] at hjmem
      obtain ⟨hjin, hjt⟩ := hjmem
      have hjt : j.title = t := by simpa using hjt
      refine ⟨j, hjin, hjt, ?_⟩
      cases hok
      refine ⟨rfl, rfl, rfl, rfl, ?_, ?_⟩
      · intro c hc
        have := head?_some_mem hc
        rw [List.mem_filter] at this
        exact ⟨this.1, by simpa using this.2⟩
      · intro hex
        cases hcf : (db.companies.filter (fun c => c.handle == j.company_handle)).head? with
        | none =>
          rw [List.head?_eq_none_iff, List.filter_eq_nil_iff] at hcf
          obtain ⟨c, hcin, hch⟩ := hex
          exact absurd (by simpa using hch) (by simpa using hcf c hcin)
        | some c =>
          have := head?_some_mem hcf
          rw [List.mem_filter] at this
          exact ⟨c, rfl, this.1, by simpa using this.2⟩

/-- C4 witness: on a one-job store, a missing title gives `NotFound` and a
present title returns the job with the company row nested. -/
theorem jobGet_spec_witness :
    jobGet ⟨[⟨"c1", "C1", "Desc1", 1, "http://c1.img"⟩],
            [⟨7, "job1", 100, "0.1", "c1"⟩]⟩ "nope" =
      .error (.notFound ("No job: " ++ "nope")) ∧
    ∃ j ∈ ([⟨7, "job1", 100, "0.1", "c1"⟩] : List JobRow), j.title = "job1" ∧
      (⟨7, "job1", 100, "0.1", some ⟨"c1", "C1", "Desc1", 1, "http://c1.img"⟩⟩ :
          JobDetail).id = j.id ∧
      (⟨7, "job1", 100, "0.1", some ⟨"c1", "C1", "Desc1", 1, "http://c1.img"⟩⟩ :
          JobDetail).title = j.title ∧
      (⟨7, "job1", 100, "0.1", some ⟨"c1", "C1", "Desc1", 1, "http://c1.img"⟩⟩ :
          JobDetail).salary = j.salary ∧
      (⟨7, "job1", 100, "0.1", some ⟨"c1", "C1", "Desc1", 1, "http://c1.img"⟩⟩ :
          JobDetail).equity = j.equity ∧
      (∀ c, (⟨7, "job1", 100, "0.1", some ⟨"c1", "C1", "Desc1", 1, "http://c1.img"⟩⟩ :
          JobDetail).company_handle = some c →
        c ∈ ([⟨"c1", "C1", "Desc1", 1, "http://c1.img"⟩] : List CompanyRow) ∧
          c.handle = j.company_handle) ∧
      ((∃ c ∈ ([⟨"c1", "C1", "Desc1", 1, "http://c1.img"⟩] : List CompanyRow),
          c.handle = j.company_handle) →
        ∃ c, (⟨7, "job1", 100, "0.1", some ⟨"c1", "C1", "Desc1", 1, "http://c1.img"⟩⟩ :
            JobDetail).company_handle = some c ∧
          c ∈ ([⟨"c1", "C1", "Desc1", 1, "http://c1.img"⟩] : List CompanyRow) ∧
          c.handle = j.company_handle) :=
  ⟨jobGet_spec.1 _ "nope" (by decide),
   jobGet_spec.2 ⟨[⟨"c1", "C1", "Desc1", 1, "http://c1.img"⟩],
     [⟨7, "job1", 100, "0.1", "c1"⟩]⟩ "job1" _ rfl⟩

/-- C6: any unrecognized key makes `Company.filter` and `Job.filter` fail
with `BadRequest` (`Invalid filter`) whatever else the query holds; and a
company query carrying both employee bounds with `minEmployees` greater
than `maxEmployees` fails with `BadRequest` (the model returns the error
instead of building a statement, so no query executes). -/
theorem filter_badRequest_spec :
    (∀ q : List (String × String), (∃ p ∈ q, p.1 ∉ companyValidFilters) →
      companyFilter q = .error (.badRequest "Invalid filter")) ∧
    (∀ q : List (String × String), (∃ p ∈ q, p.1 ∉ jobValidFilters) →
      jobFilter q = .error (.badRequest "Invalid filter")) ∧
    (∀ (q : List (String × String)) (a b : Int),
      jsNumberOf q "minEmployees" = some a → jsNumberOf q "maxEmployees" = some b →
      a > b → ∃ msg, companyFilter q = .error (.badRequest msg)) := by
  refine ⟨?_, ?_, ?_⟩
  · intro q hq
    have hcond : q.any (fun p => !(companyValidFilters.contains p.1)) = true := by
      rw [List.any_eq_true]
      obtain ⟨p, hp, hmem⟩ := hq
      exact ⟨p, hp, by simpa using hmem⟩
    unfold companyFilter
    rw [if_pos hcond]
  · intro q hq
    have hcond : q.any (fun p => !(jobValidFilters.contains p.1)) = true := by
      rw [List.any_eq_true]
      obtain ⟨p, hp, hmem⟩ := hq
      exact ⟨p, hp, by simpa using hmem⟩
    unfold jobFilter
    rw [if_pos hcond]
  · intro q a b ha hb hab
    by_cases h1 : q.any (fun p => !(companyValidFilters.contains p.1)) = true
    · exact ⟨"Invalid filter", by unfold companyFilter; rw [if_pos h1]⟩
    · have hmin : jsIn q "minEmployees" = true := by
        unfold jsIn
        cases hl : lookupJs q "minEmployees" with
        | none => unfold jsNumberOf at ha; rw [hl] at ha; cases ha
        | some s => rfl
      have hmax : jsIn q "maxEmployees" = true := by
        unfold jsIn
        cases hl : lookupJs q "maxEmployees" with
        | none => unfold jsNumberOf at hb; rw [hl] at hb; cases hb
        | some s => rfl
      have hgt : jsGtNum (jsNumberOf q "minEmployees") (jsNumberOf q "maxEmployees") = true := by
        rw [ha, hb]
        simpa [jsGtNum] using hab
      have hcond2 : (jsIn q "minEmployees" && jsIn q "maxEmployees" &&
          jsGtNum (jsNumberOf q "minEmployees") (jsNumberOf q "maxEmployees")) = true := by
        rw [hmin, hmax, hgt]
        rfl
      refine ⟨"minEmployees cannot be greater than maxEmployees", ?_⟩
      unfold companyFilter
      rw [if_neg h1, if_pos hcond2]

/-- C6 witness: an unrecognized key on each repository and an inverted
employee range, on concrete queries. -/
theorem filter_badRequest_spec_witness :
    companyFilter [("nope", "1"), ("name", "x")] = .error (.badRequest "Invalid filter") ∧
    jobFilter [("salary", "1")] = .error (.badRequest "Invalid filter") ∧
    ∃ msg, companyFilter [("minEmployees", "5"), ("maxEmployees", "3")] =
      .error (.badRequest msg) :=
  ⟨filter_badRequest_spec.1 _ ⟨("nope", "1"), by simp, by decide⟩,
   filter_badRequest_spec.2.1 _ ⟨("salary", "1"), by simp, by decide⟩,
   filter_badRequest_spec.2.2 _ 5 3 (by decide) (by decide) (by decide)⟩

/-- C9: a job query all of whose keys are recognized but which yields no
clause (no `title`, no `minSalary`, and `hasEquity` not the literal string
`true`) is not rejected with `BadRequest` and builds no filter list: the
joined filter expression is the JS stringification `undefined` of
`filters[0]`, so the issued statement text carries the ill-formed clause
`WHERE undefined` (which the storage layer then rejects). -/
theorem jobFilter_zero_clauses :
    ∀ q : List (String × String), (∀ p ∈ q, p.1 ∈ jobValidFilters) →
      lookupJs q "title" = none → lookupJs q "minSalary" = none →
      lookupJs q "hasEquity" ≠ some "true" →
      jobFilter q = .ok ⟨[], [], "undefined",
        "SELECT id, title, salary, equity, company_handle\n      FROM jobs\n      WHERE undefined\n      ORDER BY company_handle"⟩ := by
  intro q hvalid ht hms hhe
  have h1 : ¬ (q.any (fun p => !(jobValidFilters.contains p.1)) = true) := by
    rw [List.any_eq_true]
    rintro ⟨p, hp, hcontra⟩
    exact absurd (hvalid p hp) (by simpa using hcontra)
  have ht1 : jsIn q "title" = false := by unfold jsIn; rw [ht]; rfl
  have hms1 : jsIn q "minSalary" = false := by unfold jsIn; rw [hms]; rfl
  have he1 : (jsIn q "hasEquity" && (jsGetD q "hasEquity" == "true")) = false := by
    unfold jsIn jsGetD
    cases hl : lookupJs q "hasEquity" with
    | none => rfl
    | some v =>
      have hv : ¬ (v = "true") := fun hv => hhe (by rw [hl, hv])
      simp [hv]
  unfold jobFilter
  rw [if_neg h1]
  simp only [ht1, hms1, he1, Bool.false_eq_true, if_false]
  rfl

/-- C9 witness: the query whose only entry is `hasEquity=false`. -/
theorem jobFilter_zero_clauses_witness :
    jobFilter [("hasEquity", "false")] = .ok ⟨[], [], "undefined",
      "SELECT id, title, salary, equity, company_handle\n      FROM jobs\n      WHERE undefined\n      ORDER BY company_handle"⟩ :=
  jobFilter_zero_clauses [("hasEquity", "false")] (by decide) rfl rfl (by decide)

/-- C2: on every job query the filter accepts, a strict equity clause
(text starting `equity > `, bind value `0`) is accumulated exactly when
the query maps `hasEquity` to the literal string `true`; any other value
(including `false`) contributes neither clause nor bind value. -/
theorem jobFilter_equity_clause_iff :
    ∀ (q : List (String × String)) (r : FilterResult), jobFilter q = .ok r →
      ((r.filters.any (fun s => strStartsWith s "equity > ") = true) ↔
          lookupJs q "hasEquity" = some "true") ∧
      ((JSVal.vnum 0 ∈ r.filtersValues) ↔ lookupJs q "hasEquity" = some "true") := by
  intro q r h
  have hc : (jsIn q "hasEquity" && (jsGetD q "hasEquity" == "true")) = true ↔
      lookupJs q "hasEquity" = some "true" := by
    unfold jsIn jsGetD
    cases lookupJs q "hasEquity" <;> simp
  unfold jobFilter at h
  by_cases h1 : q.any (fun p => !(jobValidFilters.contains p.1)) = true
  · rw [if_pos h1] at h
    cases h
  · rw [if_neg h1] at h
    rw [← hc]
    by_cases ht : jsIn q "title" = true <;>
      by_cases hms : jsIn q "minSalary" = true <;>
        by_cases he : (jsIn q "hasEquity" && (jsGetD q "hasEquity" == "true")) = true <;>
          simp [ht, hms, he] at h <;>
            subst h <;>
              simp [he, strStartsWith, listIsPrefix]

/-- C2 witness: the theorem instantiated on the query `hasEquity=true`,
whose accepted result carries exactly the equity clause. -/
theorem jobFilter_equity_clause_iff_witness :
    (((⟨["equity > $1"], [JSVal.vnum 0], "equity > $1",
        "SELECT id, title, salary, equity, company_handle\n      FROM jobs\n      WHERE equity > $1\n      ORDER BY company_handle"⟩ :
          FilterResult).filters.any (fun s => strStartsWith s "equity > ") = true) ↔
        lookupJs [("hasEquity", "true")] "hasEquity" = some "true") ∧
    ((JSVal.vnum 0 ∈ (⟨["equity > $1"], [JSVal.vnum 0], "equity > $1",
        "SELECT id, title, salary, equity, company_handle\n      FROM jobs\n      WHERE equity > $1\n      ORDER BY company_handle"⟩ :
          FilterResult).filtersValues) ↔
        lookupJs [("hasEquity", "true")] "hasEquity" = some "true") :=
  jobFilter_equity_clause_iff [("hasEquity", "true")] _ rfl

/-- C7 counterexample: updating a nonexistent company handle or job id
with an empty update mapping fails with the builder `BadRequest`
(`No data`), not with `NotFound`, so the claim quantified over every
update call is false as stated. -/
theorem update_empty_data_badRequest :
    companyUpdate ⟨[], []⟩ "nope" [] = .error (.badRequest "No data") ∧
    jobUpdate ⟨[], []⟩ 1 [] = .error (.badRequest "No data") ∧
    JError.badRequest "No data" ≠ JError.notFound "No company: nope" :=
  ⟨rfl, rfl, by decide⟩

/-- C7 amended: with a non-empty update mapping, `Company.update` and
`Job.update` fail with `NotFound` when no row has the given handle or id,
and return the updated first matching row when one exists;
`Company.remove` and `Job.remove` fail with `NotFound` when no row
matches and succeed when one exists (the job update `NotFound` message
reads `No company:` in the source). -/
theorem crudNotFound_spec :
    (∀ (db : DB) (h : String) (data : List (String × JSVal)), data ≠ [] →
      (∀ c ∈ db.companies, c.handle ≠ h) →
      companyUpdate db h data = .error (.notFound ("No company: " ++ h))) ∧
    (∀ (db : DB) (h : String), (∀ c ∈ db.companies, c.handle ≠ h) →
      companyRemove db h = .error (.notFound ("No company: " ++ h))) ∧
    (∀ (db : DB) (i : Nat) (data : List (String × JSVal)), data ≠ [] →
      (∀ j ∈ db.jobs, j.id ≠ i) →
      jobUpdate db i data = .error (.notFound ("No company: " ++ toString i))) ∧
    (∀ (db : DB) (i : Nat), (∀ j ∈ db.jobs, j.id ≠ i) →
      jobRemove db i = .error (.notFound ("No job: " ++ toString i))) ∧
    (∀ (db : DB) (h : String) (data : List (String × JSVal)) (c : CompanyRow),
      data ≠ [] → (db.companies.filter (fun x => x.handle == h)).head? = some c →
      ∃ db2, companyUpdate db h data = .ok (companyToOut (updateCompanyRow c data), db2)) ∧
    (∀ (db : DB) (h : String), (∃ c ∈ db.companies, c.handle = h) →
      ∃ db2, companyRemove db h = .ok db2) ∧
    (∀ (db : DB) (i : Nat) (data : List (String × JSVal)) (j : JobRow),
      data ≠ [] → (db.jobs.filter (fun x => x.id == i)).head? = some j →
      ∃ db2, jobUpdate db i data = .ok (updateJobRow j data, db2)) ∧
    (∀ (db : DB) (i : Nat), (∃ j ∈ db.jobs, j.id = i) →
      ∃ db2, jobRemove db i = .ok db2) := by
  refine ⟨?_, ?_, ?_, ?_, ?_, ?_, ?_, ?_⟩
  · intro db h data hd hno
    have hf : db.companies.filter (fun c => c.handle == h) = [] := by
      rw [List.filter_eq_nil_iff]
      intro c hc
      simpa using hno c hc
    simp [companyUpdate, sqlForPartialUpdate_ok data companyJsToSql hd, hf]
  · intro db h hno
    have hf : db.companies.filter (fun c => c.handle == h) = [] := by
      rw [List.filter_eq_nil_iff]
      intro c hc
      simpa using hno c hc
    simp [companyRemove, hf]
  · intro db i data hd hno
    have hf : db.jobs.filter (fun j => j.id == i) = [] := by
      rw [List.filter_eq_nil_iff]
      intro j hj
      simpa using hno j hj
    simp [jobUpdate, sqlForPartialUpdate_ok data [] hd, hf]
  · intro db i hno
    have hf : db.jobs.filter (fun j => j.id == i) = [] := by
      rw [List.filter_eq_nil_iff]
      intro j hj
      simpa using hno j hj
    simp [jobRemove, hf]
  · intro db h data c hd hfc
    have hm : ((db.companies.filter (fun x => x.handle == h)).map
        (fun x => updateCompanyRow x data)).head? = some (updateCompanyRow c data) := by
      rw [List.head?_map, hfc]
      rfl
    refine ⟨⟨db.companies.map
      (fun x => if x.handle == h then updateCompanyRow x data else x), db.jobs⟩, ?_⟩
    simp [companyUpdate, sqlForPartialUpdate_ok data companyJsToSql hd, hm]
  · intro db h hex
    cases hfc : (db.companies.filter (fun c => c.handle == h)).head? with
    | none =>
      rw [List.head?_eq_none_iff, List.filter_eq_nil_iff] at hfc
      obtain ⟨c, hc, hh⟩ := hex
      exact absurd (by simpa using hh) (by simpa using hfc c hc)
    | some c =>
      refine ⟨⟨db.companies.filter (fun c => !(c.handle == h)), db.jobs⟩, ?_⟩
      simp [companyRemove, hfc]
  · intro db i data j hd hfc
    have hm : ((db.jobs.filter (fun x => x.id == i)).map
        (fun x => updateJobRow x data)).head? = some (updateJobRow j data) := by
      rw [List.head?_map, hfc]
      rfl
    refine ⟨⟨db.companies, db.jobs.map
      (fun x => if x.id == i then updateJobRow x data else x)⟩, ?_⟩
    simp [jobUpdate, sqlForPartialUpdate_ok data [] hd, hm]
  · intro db i hex
    cases hfc : (db.jobs.filter (fun j => j.id == i)).head? with
    | none =>
      rw [List.head?_eq_none_iff, List.filter_eq_nil_iff] at hfc
      obtain ⟨j, hj, hi⟩ := hex
      exact absurd (by simpa using hi) (by simpa using hfc j hj)
    | some j =>
      refine ⟨⟨db.companies, db.jobs.filter (fun j => !(j.id == i))⟩, ?_⟩
      simp [jobRemove, hfc]

/-- C7 amended witness: the four operations evaluated against a concrete
one-company, one-job store, hitting the missing and the present rows. -/
theorem crudNotFound_spec_witness :
    companyUpdate ⟨[⟨"c1", "C1", "D", 1, "u"⟩], [⟨7, "job1", 100, "0.1", "c1"⟩]⟩
        "nope" [("name", JSVal.vstr "N")] =
      .error (.notFound ("No company: " ++ "nope")) ∧
    jobRemove ⟨[⟨"c1", "C1", "D", 1, "u"⟩], [⟨7, "job1", 100, "0.1", "c1"⟩]⟩ 9 =
      .error (.notFound ("No job: " ++ toString 9)) ∧
    (∃ db2, companyUpdate ⟨[⟨"c1", "C1", "D", 1, "u"⟩], [⟨7, "job1", 100, "0.1", "c1"⟩]⟩
        "c1" [("name", JSVal.vstr "N")] =
      .ok (companyToOut (updateCompanyRow ⟨"c1", "C1", "D", 1, "u"⟩
        [("name", JSVal.vstr "N")]), db2)) ∧
    (∃ db2, jobRemove ⟨[⟨"c1", "C1", "D", 1, "u"⟩], [⟨7, "job1", 100, "0.1", "c1"⟩]⟩ 7 =
      .ok db2) :=
  ⟨crudNotFound_spec.1 _ "nope" _ (by decide) (by decide),
   crudNotFound_spec.2.2.2.1 _ 9 (by decide),
   crudNotFound_spec.2.2.2.2.1 _ "c1" _ ⟨"c1", "C1", "D", 1, "u"⟩ (by decide) rfl,
   crudNotFound_spec.2.2.2.2.2.2.2 _ 7 ⟨⟨7, "job1", 100, "0.1", "c1"⟩, by simp, rfl⟩⟩
